import Mathlib

/-!
Verification of the yatp thread-pool scheduler core against its
natural-language specification.  The Rust sources are embedded shallowly:

* `src/src/task/future.rs` — task status state machine (`wake_impl`),
  wake routing (`wake_task`), the future runner poll loop
  (`Runner.handle` via `handleLoop`), and the `Reschedule` yield future.
* `src/src/pool.rs` — `ThreadPool.shutdown` and its `Drop` impl.
* `src/src/pool/builder.rs` — `SchedConfig`, `Builder` setters,
  `LazyBuilder.build`.
* `src/src/pool/worker.rs` — the worker loop `WorkerThread.run`
  (modelled as an event trace).
* `src/src/metrics.rs` — `set_namespace` / `new_opts`.

Machine integers of the source (`u8` status byte, `usize` counters) are
modelled as an enumerated type and `Nat`; no arithmetic in the embedded
fragments can overflow on the inputs considered (counters only ever
increment up to the repoll limit).
-/

namespace Yatp

/-- Task status byte of a future task, `src/src/task/future.rs` lines 64-67:
NOTIFIED = 1, IDLE = 2, POLLING = 3, COMPLETED = 4. -/
inductive Status where
  | NOTIFIED
  | IDLE
  | POLLING
  | COMPLETED
  deriving DecidableEq, Repr

/-- Model of `WeakRemote<TaskCell>` as recorded in `TaskExtras.remote`:
`corePtr` is the identity of the queue core the remote points at
(compared by `ptr::eq` in the source), `alive` tells whether `upgrade()`
succeeds (the pool still exists). -/
structure WeakRemoteModel where
  corePtr : Nat
  alive : Bool
  deriving DecidableEq, Repr

/-- Where `wake_task` (future.rs lines 178-204) sends the task.
`remoteInjector c` is `remote.spawn` on the upgraded recorded remote whose
core is `c`; `dropTask` is the fall-through when `upgrade()` fails (the
task cell is dropped, nothing is enqueued); `spawnRemoteDest c` is
`(*ptr).spawn_remote` (force to the current pool's injector);
`localQueueDest c` is `(*ptr).spawn` (current worker's local queue). -/
inductive WakeDest where
  | remoteInjector (core : Nat)
  | dropTask
  | spawnRemoteDest (core : Nat)
  | localQueueDest (core : Nat)
  deriving DecidableEq, Repr

/-- Embedding of `wake_task` (future.rs lines 178-204).  `localPtr` is the
thread-local `LOCAL` raw pointer: `none` models a null pointer, `some c`
models a pointer to a `Local` whose queue core has identity `c`.
`out_of_polling` is `ptr.get().is_null() || !ptr::eq(core, remote core)`. -/
def wake_task (localPtr : Option Nat) (remote : WeakRemoteModel)
    (reschedule : Bool) : WakeDest :=
  let out_of_polling : Bool :=
    match localPtr with
    | none => true
    | some c => c != remote.corePtr
  if out_of_polling then
    if remote.alive then .remoteInjector remote.corePtr else .dropTask
  else if reschedule then
    .spawnRemoteDest remote.corePtr
  else
    match localPtr with
    | some c => .localQueueDest c
    | none => .dropTask
  -- the last `none` branch is unreachable: out_of_polling is true there

/-- Embedding of `wake_impl` (future.rs lines 111-141).  The CAS loop is
driven by an oracle: entry `none` means the `compare_exchange_weak`
attempt succeeds; entry `some cur` means it fails (spuriously or because
another thread changed the byte) and `cur` is the freshly observed
status, with which the loop retries.  An exhausted oracle means every
remaining attempt succeeds.  Result: the final status together with the
at-most-one `wake_task` call performed (wake_impl always passes
`reschedule = false`). -/
def wake_impl (lp : Option Nat) (r : WeakRemoteModel) :
    List (Option Status) → Status → Status × Option WakeDest
  | oracle, .IDLE =>
    match oracle with
    | some cur :: rest => wake_impl lp r rest cur
    | _ => (.NOTIFIED, some (wake_task lp r false))
  | oracle, .POLLING =>
    match oracle with
    | some cur :: rest => wake_impl lp r rest cur
    | _ => (.NOTIFIED, none)
  | _, .NOTIFIED => (.NOTIFIED, none)
  | _, .COMPLETED => (.COMPLETED, none)

/-- Default repoll limit, future.rs line 20:
`const DEFAULT_REPOLL_LIMIT: usize = 5;`. -/
def DEFAULT_REPOLL_LIMIT : Nat := 5

/-- One poll of the embedded future inside `Runner::handle`.  `ready` is a
`Poll::Ready(())` return.  `pending woke setYield` is a `Poll::Pending`
return during which the task's waker fired `woke` times zero-or-once
(`woke = true` makes the subsequent `compare_exchange(POLLING, IDLE)`
fail with `NOTIFIED`) and the future set the thread-local
`NEED_RESCHEDULE` flag iff `setYield`. -/
inductive PollStep where
  | ready
  | pending (woke : Bool) (setYield : Bool)
  deriving DecidableEq, Repr

/-- Observable outcome of one `Runner::handle` call (future.rs lines
252-291): the returned `bool` (`done`), how many times the future was
polled, the task status when `handle` returns, the `wake_task` call made
on exit (`some resched` iff `wake_task(task, resched)` ran), and the
value of the thread-local `NEED_RESCHEDULE` flag on exit. -/
structure HandleResult where
  done : Bool
  polls : Nat
  finalStatus : Status
  rerouted : Option Bool
  needReschedule : Bool
  deriving DecidableEq, Repr

/-- The loop of `Runner::handle` (future.rs lines 258-289).  `L` is
`self.repoll_limit`, `p` the value of `scope.0.need_preempt()`, `flag`
the current thread-local `NEED_RESCHEDULE`, `n` the `repoll_times`
counter.  The future's successive poll returns are the `steps` list; an
exhausted list stands for a future that returns `Ready` on its next
poll. -/
def handleLoop (L : Nat) (p : Bool) :
    Bool → Nat → List PollStep → HandleResult
  | flag, _, [] =>
    { done := true, polls := 1, finalStatus := .COMPLETED,
      rerouted := none, needReschedule := flag }
  | flag, _, .ready :: _ =>
    { done := true, polls := 1, finalStatus := .COMPLETED,
      rerouted := none, needReschedule := flag }
  | flag, n, .pending woke setYield :: rest =>
    let flag1 := flag || setYield
    if woke then
      -- compare_exchange(POLLING, IDLE) fails with Err(NOTIFIED)
      let need_reschedule := flag1  -- NEED_RESCHEDULE.with(|r| r.replace(false))
      if (decide (L ≤ n) || need_reschedule) && p then
        { done := false, polls := 1, finalStatus := .NOTIFIED,
          rerouted := some need_reschedule, needReschedule := false }
      else
        let r := handleLoop L p false (n + 1) rest
        { r with polls := r.polls + 1 }
    else
      -- compare_exchange(POLLING, IDLE) succeeds
      { done := false, polls := 1, finalStatus := .IDLE,
        rerouted := none, needReschedule := flag1 }

/-- `Runner::handle` entry (future.rs line 252): `repoll_times` starts at
0 and the flag state is whatever the thread-local holds on entry. -/
def Runner.handle (L : Nat) (p : Bool) (flag : Bool)
    (steps : List PollStep) : HandleResult :=
  handleLoop L p flag 0 steps

/-- The `Reschedule` future's state, future.rs lines 301-303. -/
structure Reschedule where
  first_poll : Bool
  deriving DecidableEq, Repr

/-- Outcome of a `Poll` call on `Reschedule`: its new state, whether it
returned `Pending` (`pending = true`) or `Ready`, the thread-local
`NEED_RESCHEDULE` flag after the call, and whether it invoked
`cx.waker().wake_by_ref()`. -/
structure ReschedulePollResult where
  state : Reschedule
  pending : Bool
  yieldFlag : Bool
  wokeByRef : Bool
  deriving DecidableEq, Repr

/-- Embedding of `Reschedule::poll` (future.rs lines 308-319); `flag` is
the thread-local `NEED_RESCHEDULE` before the call. -/
def Reschedule.poll (s : Reschedule) (flag : Bool) : ReschedulePollResult :=
  if s.first_poll then
    { state := { first_poll := false }, pending := true,
      yieldFlag := true, wokeByRef := true }
  else
    { state := s, pending := false, yieldFlag := flag, wokeByRef := false }

/-- State of a `ThreadPool<T>` (pool.rs lines 22-25) together with the
observable side effects of shutdown: `queueClosed` records whether the
injector has been closed (nothing in pool.rs ever sets it), `threads` the
join handles still stored in the `Mutex<Vec<JoinHandle<()>>>`, and
`joined` the handles joined so far, in order. -/
structure PoolState where
  queueClosed : Bool
  threads : List Nat
  joined : List Nat
  deriving DecidableEq, Repr

/-- Embedding of `ThreadPool::shutdown` (pool.rs lines 38-43): it swaps
the stored vector for an empty one and joins each drained handle.  It
never touches the queue, although its doc comment says it closes it. -/
def ThreadPool.shutdown (p : PoolState) : PoolState :=
  { p with threads := [], joined := p.joined ++ p.threads }

/-- Embedding of `impl Drop for ThreadPool` (pool.rs lines 51-56): drop
just calls `shutdown`. -/
def ThreadPool.dropPool (p : PoolState) : PoolState :=
  ThreadPool.shutdown p

/-- `SchedConfig` (builder.rs lines 11-29); durations in nanoseconds. -/
structure SchedConfig where
  max_thread_count : Nat
  min_thread_count : Nat
  max_inplace_spin : Nat
  max_idle_time : Nat
  max_wait_time : Nat
  wake_backoff : Nat
  alloc_slot_backoff : Nat
  deriving DecidableEq, Repr

/-- `SchedConfig::default` (builder.rs lines 31-43); `numCpus` stands for
the environment-dependent `num_cpus::get()`. -/
def SchedConfig.default (numCpus : Nat) : SchedConfig where
  max_thread_count := numCpus
  min_thread_count := 1
  max_inplace_spin := 4
  max_idle_time := 1000000
  max_wait_time := 1000000
  wake_backoff := 1000000
  alloc_slot_backoff := 2000000

/-- `Builder` (builder.rs lines 100-105).  `name_stem` models the source
field `name_pre` + `fix` (the thread-name format is "stem-index"); the
name is altered here only because of lexical constraints of this
development. -/
structure Builder where
  name_stem : String
  stackSize : Option Nat  -- the source field `stack_size`; renamed so the
                          -- setter below can keep the source method name
  sched_config : SchedConfig
  deriving DecidableEq, Repr

/-- `Builder::new` (builder.rs lines 109-115). -/
def Builder.new (name : String) (numCpus : Nat) : Builder where
  name_stem := name
  stackSize := none
  sched_config := SchedConfig.default numCpus

/-- `Builder::max_thread_count` (builder.rs lines 118-123): updates only
when `count > 0`. -/
def Builder.max_thread_count (b : Builder) (count : Nat) : Builder :=
  if count > 0 then
    { b with sched_config := { b.sched_config with max_thread_count := count } }
  else b

/-- `Builder::min_thread_count` (builder.rs lines 126-131): updates only
when `count > 0`. -/
def Builder.min_thread_count (b : Builder) (count : Nat) : Builder :=
  if count > 0 then
    { b with sched_config := { b.sched_config with min_thread_count := count } }
  else b

/-- `Builder::stack_size` (builder.rs lines 167-172): updates only when
`size > 0`. -/
def Builder.stack_size (b : Builder) (size : Nat) : Builder :=
  if size > 0 then { b with stackSize := some size } else b

/-- What the closure passed to `thread::Builder::spawn` in
`LazyBuilder::build` (builder.rs lines 85-88) does.  In the source it is
literally `move || { drop(local_queue); unimplemented!() }`: it drops the
local queue and panics.  `workerLoop` is the behavior the spec requires
(constructing a `WorkerThread` and calling `run`), present in
worker.rs but never referenced by `build`. -/
inductive ThreadBody where
  | unimplementedPanic
  | workerLoop
  deriving DecidableEq, Repr

/-- An OS thread spawned by `LazyBuilder::build`: its name and body. -/
structure SpawnedThread where
  name : String
  body : ThreadBody
  deriving DecidableEq, Repr

/-- The local queues produced for `LazyBuilder` by `Builder::freeze`
(builder.rs line 191): `queue_builder(self.sched_config.max_thread_count)`
returns one local queue per worker. -/
def freezeLocalQueues (max_thread_count : Nat) : List Nat :=
  List.range max_thread_count

/-- Embedding of `LazyBuilder::build` (builder.rs lines 70-96): for each
`(i, local_queue)` of the enumerated local queues it spawns a thread
named "stem-i" whose closure drops the queue and hits `unimplemented`,
i.e. panics; no worker loop is started. -/
def LazyBuilder.build (name_stem : String) (localQueues : List Nat) :
    List SpawnedThread :=
  localQueues.enum.map fun iq =>
    { name := name_stem ++ "-" ++ toString iq.1,
      body := ThreadBody.unimplementedPanic }

/-- Observable events of a worker thread (worker.rs): runner hooks
`start`, `pause`, `resume`, `handle`, `endHook` (the source hook `end`,
renamed because `end` is a Lean keyword) and the potentially blocking
call `popOrSleep` (`self.local.pop_or_sleep()`). -/
inductive Ev where
  | start
  | pause
  | popOrSleep
  | resume
  | handle
  | endHook
  deriving DecidableEq, Repr

/-- Oracle for one iteration of the `while` loop in `WorkerThread::run`
(worker.rs lines 43-49): `popSucceeds` tells whether `self.local.pop()`
returned `Some` during the bounded spin of `WorkerThread::pop`
(worker.rs lines 26-34), and `sleepYields` whether `pop_or_sleep`
returned `Some` when the spin failed. -/
structure Iter where
  popSucceeds : Bool
  sleepYields : Bool
  deriving DecidableEq, Repr

/-- Events of one `WorkerThread::pop` call (worker.rs lines 24-39): a
successful bounded spin emits no hook; otherwise `pause`, the blocking
`pop_or_sleep`, then `resume`. -/
def popEvents (o : Iter) : List Ev :=
  if o.popSucceeds then [] else [Ev.pause, Ev.popOrSleep, Ev.resume]

/-- Whether `WorkerThread::pop` returned `Some` task. -/
def popYields (o : Iter) : Bool :=
  o.popSucceeds || o.sleepYields

/-- Events of one iteration of `WorkerThread::run`'s `while` body:
the `pop` events, then `runner.handle` iff a task was obtained
(a `None` pop makes the loop `continue`). -/
def iterEvents (o : Iter) : List Ev :=
  popEvents o ++ (if popYields o then [Ev.handle] else [])

/-- Embedding of `WorkerThread::run` (worker.rs lines 41-51) as an event
trace.  `iters` are the loop iterations executed before
`self.local.core().is_shutdown()` is observed true; `runner.start` runs
first, `runner.end` last. -/
def WorkerThread.run (iters : List Iter) : List Ev :=
  Ev.start :: (iters.map iterEvents).flatten ++ [Ev.endHook]

/-- Checks that every `popOrSleep` event in a trace is immediately
preceded by `pause` and immediately followed by `resume`. -/
def properlyBracketed : List Ev → Bool
  | [] => true
  | .pause :: .popOrSleep :: .resume :: rest => properlyBracketed rest
  | .popOrSleep :: _ => false
  | _ :: rest => properlyBracketed rest

/-- The process-wide metrics namespace, metrics.rs line 41:
`static ref NAMESPACE: Mutex<Option<String>> = Mutex::new(None);`.
The state is the mutex's contents; initially `none`. -/
def NAMESPACE_initial : Option String := none

/-- Embedding of `set_namespace` (metrics.rs lines 48-50): overwrites the
stored namespace with `s.map(Into::into)` (the identity on `String`). -/
def set_namespace (s : Option String) (st : Option String) : Option String :=
  let _ := st
  s.map (fun x => x)

/-- Model of `prometheus::Opts`: the metric name, help text and the
namespace field (empty when unset).  Prometheus prepends
`ns ++ "_"` to the metric's full name iff the namespace is nonempty. -/
structure Opts where
  name : String
  help : String
  ns : String
  deriving DecidableEq, Repr

/-- `Opts::new(name, help)`: namespace unset. -/
def Opts.new (name help : String) : Opts :=
  { name := name, help := help, ns := "" }

/-- `opts.namespace(ns)` of the prometheus crate. -/
def Opts.withNamespace (o : Opts) (ns : String) : Opts :=
  { o with ns := ns }

/-- The fully qualified metric name prometheus derives from an `Opts`. -/
def Opts.fullName (o : Opts) : String :=
  if o.ns = "" then o.name else o.ns ++ "_" ++ o.name

/-- Embedding of `new_opts` (metrics.rs lines 52-58), with the namespace
state passed explicitly in place of the `NAMESPACE` mutex. -/
def new_opts (st : Option String) (name help : String) : Opts :=
  let opts := Opts.new name help
  match st with
  | some ns => opts.withNamespace ns
  | none => opts

/-! ## Sanity checks on concrete inputs -/

example : wake_impl (some 3) ⟨3, true⟩ [] .IDLE
    = (.NOTIFIED, some (.localQueueDest 3)) := by decide

example : wake_impl none ⟨3, true⟩ [some .POLLING, none] .IDLE
    = (.NOTIFIED, none) := by decide

example : Runner.handle 5 true false
    [.pending true false, .pending true false, .ready]
    = { done := true, polls := 3, finalStatus := .COMPLETED,
        rerouted := none, needReschedule := false } := by decide

example : WorkerThread.run [⟨true, true⟩, ⟨false, true⟩, ⟨false, false⟩]
    = [.start, .handle, .pause, .popOrSleep, .resume, .handle,
       .pause, .popOrSleep, .resume, .endHook] := by decide

/-! ## Helper lemmas on the poll loop and the worker trace -/

/-- Unfolding of `handleLoop` at a `Pending` poll during which the waker
fired: the CAS from POLLING to IDLE fails with NOTIFIED, the yield flag
is consumed, and the loop either reroutes or repolls. -/
theorem handleLoop_pending_true (L : Nat) (p flag : Bool) (n : Nat)
    (setY : Bool) (rest : List PollStep) :
    handleLoop L p flag n (.pending true setY :: rest)
      = if ((decide (L ≤ n) || (flag || setY)) && p) = true
        then { done := false, polls := 1, finalStatus := .NOTIFIED,
               rerouted := some (flag || setY), needReschedule := false }
        else { handleLoop L p false (n + 1) rest with
               polls := (handleLoop L p false (n + 1) rest).polls + 1 } :=
  rfl

/-- Unfolding of `handleLoop` at a `Pending` poll with no wake: the CAS
from POLLING to IDLE succeeds and `handle` returns false. -/
theorem handleLoop_pending_false (L : Nat) (p flag : Bool) (n : Nat)
    (setY : Bool) (rest : List PollStep) :
    handleLoop L p flag n (.pending false setY :: rest)
      = { done := false, polls := 1, finalStatus := .IDLE,
          rerouted := none, needReschedule := flag || setY } :=
  rfl

/-- Whenever `handle` returns true, the status stored is COMPLETED and no
`wake_task` call was made. -/
theorem handleLoop_done_completed (L : Nat) (p : Bool) :
    ∀ (steps : List PollStep) (flag : Bool) (n : Nat),
      (handleLoop L p flag n steps).done = true →
      (handleLoop L p flag n steps).finalStatus = .COMPLETED ∧
      (handleLoop L p flag n steps).rerouted = none := by
  intro steps
  induction steps with
  | nil => exact fun flag n _ => ⟨rfl, rfl⟩
  | cons s rest ih =>
    intro flag n h
    cases s with
    | ready => exact ⟨rfl, rfl⟩
    | pending woke setY =>
      cases woke with
      | false =>
        rw [handleLoop_pending_false] at h
        exact absurd h (by simp)
      | true =>
        rw [handleLoop_pending_true] at h ⊢
        by_cases hc : ((decide (L ≤ n) || (flag || setY)) && p) = true
        · rw [if_pos hc] at h
          exact absurd h (by simp)
        · rw [if_neg hc] at h ⊢
          exact ih false (n + 1) h

/-- With `need_preempt` true, starting from counter `n ≤ L` the loop
performs at most `L + 1 - n` polls. -/
theorem handleLoop_polls_le (L : Nat) :
    ∀ (steps : List PollStep) (flag : Bool) (n : Nat), n ≤ L →
      (handleLoop L true flag n steps).polls + n ≤ L + 1 := by
  intro steps
  induction steps with
  | nil =>
    intro flag n hn
    show 1 + n ≤ L + 1
    omega
  | cons s rest ih =>
    intro flag n hn
    cases s with
    | ready =>
      show 1 + n ≤ L + 1
      omega
    | pending woke setY =>
      cases woke with
      | false =>
        rw [handleLoop_pending_false]
        show 1 + n ≤ L + 1
        omega
      | true =>
        rw [handleLoop_pending_true]
        by_cases hc : ((decide (L ≤ n) || (flag || setY)) && true) = true
        · rw [if_pos hc]
          show 1 + n ≤ L + 1
          omega
        · rw [if_neg hc]
          have hn' : n + 1 ≤ L := by
            simp only [Bool.and_true, Bool.or_eq_true, decide_eq_true_eq] at hc
            omega
          have := ih false (n + 1) hn'
          simp only [HandleResult.mk.injEq]
          omega

/-! ## Claims -/

/-- C1: for every invocation of `wake_impl`: a load of IDLE leads to a
CAS to NOTIFIED which, on success (oracle empty or `none`-headed),
performs exactly one enqueue (one `wake_task` call, with
`reschedule = false`); a load of POLLING leads to a CAS to NOTIFIED
which on success performs no enqueue; a load of NOTIFIED or COMPLETED
changes nothing and enqueues nothing, whatever the oracle; and a CAS
failure (spurious or not) makes the loop retry with the freshly observed
status. -/
theorem C1_wake_protocol (lp : Option Nat) (r : WeakRemoteModel)
    (oracle : List (Option Status)) (cur : Status) :
    wake_impl lp r [] .IDLE = (.NOTIFIED, some (wake_task lp r false))
  ∧ wake_impl lp r (none :: oracle) .IDLE
      = (.NOTIFIED, some (wake_task lp r false))
  ∧ wake_impl lp r [] .POLLING = (.NOTIFIED, none)
  ∧ wake_impl lp r (none :: oracle) .POLLING = (.NOTIFIED, none)
  ∧ wake_impl lp r oracle .NOTIFIED = (.NOTIFIED, none)
  ∧ wake_impl lp r oracle .COMPLETED = (.COMPLETED, none)
  ∧ wake_impl lp r (some cur :: oracle) .IDLE = wake_impl lp r oracle cur
  ∧ wake_impl lp r (some cur :: oracle) .POLLING
      = wake_impl lp r oracle cur := by
  refine ⟨rfl, rfl, rfl, rfl, ?_, ?_, rfl, rfl⟩ <;> cases oracle <;> rfl

/-- C2: routing of a `wake_task` enqueue.  When the thread-local pointer
is null, or points at a worker whose queue core differs from the task's
recorded remote, the task goes to the recorded remote's injector if the
weak upgrade succeeds and is dropped without being enqueued otherwise;
when the pointer matches and a reschedule was explicitly requested the
task goes to the injector via `spawn_remote`; otherwise it goes onto the
current worker's local queue. -/
theorem C2_wake_routing (localPtr : Option Nat) (r : WeakRemoteModel)
    (resched : Bool) :
    ((localPtr = none ∨ ∃ c, localPtr = some c ∧ c ≠ r.corePtr) →
        wake_task localPtr r resched
          = if r.alive then .remoteInjector r.corePtr else .dropTask)
  ∧ (localPtr = some r.corePtr → resched = true →
        wake_task localPtr r resched = .spawnRemoteDest r.corePtr)
  ∧ (localPtr = some r.corePtr → resched = false →
        wake_task localPtr r resched = .localQueueDest r.corePtr) := by
  refine ⟨?_, ?_, ?_⟩
  · rintro (rfl | ⟨c, rfl, hc⟩)
    · rfl
    · simp [wake_task, hc]
  · rintro rfl rfl
    simp [wake_task]
  · rintro rfl rfl
    simp [wake_task]

/-- Witness for C2 at concrete inputs: a null thread-local routes to the
recorded remote's injector; a matching pointer routes to `spawn_remote`
under an explicit reschedule and to the local queue otherwise; a dead
remote drops the task. -/
theorem C2_wake_routing_witness :
    wake_task none ⟨7, true⟩ false = .remoteInjector 7
  ∧ wake_task (some 2) ⟨7, false⟩ false = .dropTask
  ∧ wake_task (some 7) ⟨7, true⟩ true = .spawnRemoteDest 7
  ∧ wake_task (some 7) ⟨7, true⟩ false = .localQueueDest 7 := by
  refine ⟨?_, ?_, ?_, ?_⟩
  · exact (C2_wake_routing none ⟨7, true⟩ false).1 (Or.inl rfl)
  · exact (C2_wake_routing (some 2) ⟨7, false⟩ false).1
      (Or.inr ⟨2, rfl, by decide⟩)
  · exact (C2_wake_routing (some 7) ⟨7, true⟩ true).2.1 rfl rfl
  · exact (C2_wake_routing (some 7) ⟨7, true⟩ false).2.2 rfl rfl

/-- C3: COMPLETED is terminal.  A `Ready` poll makes `handle` store
COMPLETED and return true without any enqueue; more generally whenever
`handle` returns true the stored status is COMPLETED and no `wake_task`
ran; and waking a COMPLETED task neither changes the status nor enqueues
anything, so a task that returned Ready is never polled again and never
re-enters a queue. -/
theorem C3_completed_terminal (L n : Nat) (p flag : Bool)
    (rest steps : List PollStep) (lp : Option Nat) (r : WeakRemoteModel)
    (oracle : List (Option Status)) :
    handleLoop L p flag n (.ready :: rest)
      = { done := true, polls := 1, finalStatus := .COMPLETED,
          rerouted := none, needReschedule := flag }
  ∧ wake_impl lp r oracle .COMPLETED = (.COMPLETED, none)
  ∧ ((handleLoop L p flag n steps).done = true →
        (handleLoop L p flag n steps).finalStatus = .COMPLETED
      ∧ (handleLoop L p flag n steps).rerouted = none) := by
  refine ⟨rfl, ?_, handleLoop_done_completed L p steps flag n⟩
  cases oracle <;> rfl

/-- Witness for C3 at a concrete run: a future that is Ready on its first
poll ends COMPLETED with no reroute. -/
theorem C3_completed_terminal_witness :
    (handleLoop 5 true false 0 [.ready]).finalStatus = .COMPLETED
  ∧ (handleLoop 5 true false 0 [.ready]).rerouted = none :=
  (C3_completed_terminal 5 0 true false [] [.ready] none ⟨0, true⟩ []).2.2 rfl

/-- C4: in the poll loop, a failed CAS with status NOTIFIED re-routes the
task out of the loop (returning false after `wake_task`) iff the repoll
counter has reached `repoll_limit` or the yield flag was set, and
`need_preempt()` is true; otherwise the counter is incremented and the
future is polled again within the same `handle` call.
`DEFAULT_REPOLL_LIMIT` is 5, and with `need_preempt` always true a
continuously self-waking future is polled at most `repoll_limit + 1`
times (exactly 6 at the default limit) per `handle` invocation. -/
theorem C4_repoll_preemption (L n : Nat) (p flag : Bool)
    (rest steps : List PollStep) :
    DEFAULT_REPOLL_LIMIT = 5
  ∧ handleLoop L p flag n (.pending true false :: rest)
      = (if ((decide (L ≤ n) || flag) && p) = true
         then { done := false, polls := 1, finalStatus := .NOTIFIED,
                rerouted := some flag, needReschedule := false }
         else { handleLoop L p false (n + 1) rest with
                polls := (handleLoop L p false (n + 1) rest).polls + 1 })
  ∧ (n ≤ L → (handleLoop L true flag n steps).polls + n ≤ L + 1)
  ∧ (∀ more, Runner.handle DEFAULT_REPOLL_LIMIT true false
        (List.replicate 6 (.pending true false) ++ more)
      = { done := false, polls := 6, finalStatus := .NOTIFIED,
          rerouted := some false, needReschedule := false }) := by
  refine ⟨rfl, ?_, fun hn => handleLoop_polls_le L steps flag n hn, ?_⟩
  · simpa using handleLoop_pending_true L p flag n false rest
  · intro more
    rfl

/-- Witness for C4 at a concrete input: starting at counter 2 with the
default limit, at most 4 further polls happen. -/
theorem C4_repoll_preemption_witness :
    (handleLoop 5 true false 2 [.pending true false]).polls + 2 ≤ 5 + 1 :=
  (C4_repoll_preemption 5 2 true false [] [.pending true false]).2.2.1
    (by decide)

/-- C5: the `Reschedule` future's first poll sets the thread-local yield
flag, wakes its own waker by reference and returns Pending; its second
poll returns Ready without setting the flag or waking; and the outer poll
loop consumes the flag (leaving it false) when it observes the NOTIFIED
transition — in particular a reschedule-poll under preemption reroutes
with `reschedule = true` and resets the flag. -/
theorem C5_reschedule_yield (flag : Bool) (L : Nat) :
    Reschedule.poll { first_poll := true } flag
      = { state := { first_poll := false }, pending := true,
          yieldFlag := true, wokeByRef := true }
  ∧ Reschedule.poll { first_poll := false } flag
      = { state := { first_poll := false }, pending := false,
          yieldFlag := flag, wokeByRef := false }
  ∧ Runner.handle L true false [.pending true true, .ready]
      = { done := false, polls := 1, finalStatus := .NOTIFIED,
          rerouted := some true, needReschedule := false } := by
  refine ⟨rfl, rfl, ?_⟩
  show handleLoop L true false 0 [.pending true true, .ready]
      = { done := false, polls := 1, finalStatus := .NOTIFIED,
          rerouted := some true, needReschedule := false }
  rw [handleLoop_pending_true]
  simp

/-- C6: what `ThreadPool::shutdown` actually does.  It joins every
stored worker handle, a second call is a no-op (the handle vector is
already empty), and dropping the pool invokes `shutdown`; but it never
closes the injector — `queueClosed` is left untouched for every pool
state, although the claim (and the method's own doc comment, "Closes the
queue and wait for all threads to exit") says the queue is closed so
that parked workers unblock. -/
theorem C6_shutdown_no_close (p : PoolState) :
    ThreadPool.shutdown { queueClosed := false, threads := [0], joined := [] }
      = { queueClosed := false, threads := [], joined := [0] }
  ∧ ThreadPool.shutdown (ThreadPool.shutdown
      { queueClosed := false, threads := [0], joined := [] })
      = ThreadPool.shutdown
          { queueClosed := false, threads := [0], joined := [] }
  ∧ ThreadPool.dropPool p = ThreadPool.shutdown p
  ∧ (ThreadPool.shutdown p).queueClosed = p.queueClosed
  ∧ (ThreadPool.shutdown p).threads = [] := by
  refine ⟨rfl, rfl, rfl, rfl, rfl⟩

/-- C7: what `LazyBuilder::build` actually spawns.  For
`max_thread_count` local queues it spawns exactly that many threads,
named "stem-index"; but every spawned closure is
`move || { drop(local_queue); unimplemented!() }` — it panics instead of
running the worker loop of `WorkerThread::run`. -/
theorem C7_build_threads :
    LazyBuilder.build "worker" (freezeLocalQueues 2)
      = [{ name := "worker-0", body := .unimplementedPanic },
         { name := "worker-1", body := .unimplementedPanic }]
  ∧ (∀ stem n, (LazyBuilder.build stem (freezeLocalQueues n)).length = n)
  ∧ (∀ stem n, (LazyBuilder.build stem (freezeLocalQueues n)).all
        (fun t => t.body == ThreadBody.unimplementedPanic) = true)
  ∧ ThreadBody.unimplementedPanic ≠ ThreadBody.workerLoop := by
  refine ⟨by decide, ?_, ?_, by decide⟩
  · intro stem n
    simp [LazyBuilder.build, freezeLocalQueues]
  · intro stem n
    simp only [List.all_eq_true, LazyBuilder.build]
    intro t ht
    simp only [List.mem_map] at ht
    obtain ⟨a, _, rfl⟩ := ht
    rfl

/-- Bracket-checking skips over the events of one loop iteration: every
iteration contributes either nothing, a lone `handle`, or the exact
block `pause, popOrSleep, resume` optionally followed by `handle`. -/
theorem properlyBracketed_iterEvents (o : Iter) (rest : List Ev) :
    properlyBracketed (iterEvents o ++ rest) = properlyBracketed rest := by
  cases o with
  | mk ps sy =>
    cases ps <;> cases sy <;>
      simp [iterEvents, popEvents, popYields, properlyBracketed]

/-- Bracket-checking a flattened trace reduces to its tail. -/
theorem properlyBracketed_flatten (iters : List Iter) (tail : List Ev)
    (h : properlyBracketed tail = true) :
    properlyBracketed ((iters.map iterEvents).flatten ++ tail) = true := by
  induction iters with
  | nil => simpa using h
  | cons o rest ih =>
    simp only [List.map_cons, List.flatten_cons, List.append_assoc]
    rw [properlyBracketed_iterEvents]
    exact ih

/-- No loop iteration emits the `start` hook. -/
theorem iterEvents_count_start (o : Iter) :
    (iterEvents o).count Ev.start = 0 := by
  cases o with
  | mk ps sy => cases ps <;> cases sy <;> rfl

/-- No loop iteration emits the `end` hook. -/
theorem iterEvents_count_end (o : Iter) :
    (iterEvents o).count Ev.endHook = 0 := by
  cases o with
  | mk ps sy => cases ps <;> cases sy <;> rfl

/-- The flattened iteration events contain neither `start` nor `end`. -/
theorem flatten_count_hooks (iters : List Iter) :
    ((iters.map iterEvents).flatten.count Ev.start = 0)
  ∧ ((iters.map iterEvents).flatten.count Ev.endHook = 0) := by
  induction iters with
  | nil => exact ⟨rfl, rfl⟩
  | cons o rest ih =>
    simp [List.count_append, iterEvents_count_start, iterEvents_count_end,
      ih.1, ih.2]

/-- C8: in every worker-thread execution trace, `start` is the first
event and occurs exactly once; `end` is the last event and occurs
exactly once, with nothing after it; every blocking `pop_or_sleep` call
is immediately preceded by `pause` and immediately followed by
`resume`; and `pop_or_sleep` (the only blocking call) happens only when
the bounded spin on the local pop failed. -/
theorem C8_worker_hooks (iters : List Iter) :
    (WorkerThread.run iters).head? = some Ev.start
  ∧ (WorkerThread.run iters).count Ev.start = 1
  ∧ (WorkerThread.run iters).getLast? = some Ev.endHook
  ∧ (WorkerThread.run iters).count Ev.endHook = 1
  ∧ properlyBracketed (WorkerThread.run iters) = true
  ∧ (∀ o : Iter, o.popSucceeds = true → Ev.popOrSleep ∉ iterEvents o) := by
  refine ⟨rfl, ?_, ?_, ?_, ?_, ?_⟩
  · show (Ev.start :: ((iters.map iterEvents).flatten ++ [Ev.endHook])).count
        Ev.start = 1
    rw [List.count_cons_self, List.count_append, (flatten_count_hooks iters).1]
    rfl
  · show (Ev.start :: ((iters.map iterEvents).flatten ++ [Ev.endHook])).getLast?
        = some Ev.endHook
    rw [← List.cons_append, List.getLast?_concat]
  · show (Ev.start :: ((iters.map iterEvents).flatten ++ [Ev.endHook])).count
        Ev.endHook = 1
    rw [List.count_cons_of_ne (by decide), List.count_append,
      (flatten_count_hooks iters).2]
    rfl
  · show properlyBracketed
        ((iters.map iterEvents).flatten ++ [Ev.endHook]) = true
    exact properlyBracketed_flatten iters [Ev.endHook] rfl
  · intro o h
    cases o with
    | mk ps sy =>
      cases h
      cases sy <;> simp [iterEvents, popEvents, popYields]

/-- Witness for C8 at a concrete run: a trace with a successful spin, a
sleep that yields a task, and a sleep that times out, is properly
bracketed, and an iteration whose spin succeeds never reaches
`pop_or_sleep`. -/
theorem C8_worker_hooks_witness :
    properlyBracketed
      (WorkerThread.run [⟨true, true⟩, ⟨false, true⟩, ⟨false, false⟩]) = true
  ∧ Ev.popOrSleep ∉ iterEvents ⟨true, false⟩ :=
  ⟨(C8_worker_hooks [⟨true, true⟩, ⟨false, true⟩, ⟨false, false⟩]).2.2.2.2.1,
   (C8_worker_hooks []).2.2.2.2.2 ⟨true, false⟩ rfl⟩

/-- C9: setting the metrics namespace and then clearing it round-trips:
after `set_namespace (some "x")` followed by `set_namespace none`, the
state equals the initial one, and `new_opts` yields exactly the options
it would have yielded had `set_namespace` never been called, whose full
metric name is the bare `name` with no namespace prefixed. -/
theorem C9_namespace_roundtrip (name help : String) :
    set_namespace none (set_namespace (some "x") NAMESPACE_initial)
      = NAMESPACE_initial
  ∧ new_opts (set_namespace none (set_namespace (some "x") NAMESPACE_initial))
      name help = new_opts NAMESPACE_initial name help
  ∧ (new_opts (set_namespace none (set_namespace (some "x") NAMESPACE_initial))
      name help).fullName = name := by
  refine ⟨rfl, rfl, ?_⟩
  simp [new_opts, set_namespace, NAMESPACE_initial, Opts.fullName, Opts.new]

/-- C10: `Builder::max_thread_count 0`, `Builder::min_thread_count 0` and
`Builder::stack_size 0` leave the whole builder unchanged, while a
positive argument replaces exactly the corresponding field, leaving every
other field as it was. -/
theorem C10_builder_setters (b : Builder) (c : Nat) :
    Builder.max_thread_count b 0 = b
  ∧ Builder.min_thread_count b 0 = b
  ∧ Builder.stack_size b 0 = b
  ∧ (0 < c →
      Builder.max_thread_count b c
          = { b with sched_config :=
                { b.sched_config with max_thread_count := c } }
        ∧ Builder.min_thread_count b c
          = { b with sched_config :=
                { b.sched_config with min_thread_count := c } }
        ∧ Builder.stack_size b c = { b with stackSize := some c }) := by
  refine ⟨rfl, rfl, rfl, fun hc => ⟨?_, ?_, ?_⟩⟩ <;>
    simp [Builder.max_thread_count, Builder.min_thread_count,
      Builder.stack_size, hc]

/-- Witness for C10 at a concrete builder: zero arguments are no-ops and
`max_thread_count 3` updates exactly that field. -/
theorem C10_builder_setters_witness :
    Builder.max_thread_count (Builder.new "w" 8) 0 = Builder.new "w" 8
  ∧ Builder.max_thread_count (Builder.new "w" 8) 3
      = { Builder.new "w" 8 with sched_config :=
            { (Builder.new "w" 8).sched_config with max_thread_count := 3 } } :=
  ⟨(C10_builder_setters (Builder.new "w" 8) 3).1,
   ((C10_builder_setters (Builder.new "w" 8) 3).2.2.2 (by decide)).1⟩

end Yatp
